import Mathlib

/-!
Verification development for the leettools ingestion/flow core.

Shallow embedding of the Python sources under `src/src/leettools/`:
pure logic becomes Lean functions; the side effects of a step (store
updates, waits, scheduler starts, logging) become an explicit, ordered
list of `Effect` values produced alongside the return value; fallible
code returns `Except`.  External collaborators (the web searcher, the
ad-hoc pipeline, the scheduler manager, the store wait primitive) are
inputs of the embedding: their outcomes are fields of an environment
record, so every control path of the embedded code is a function of the
environment.
-/

namespace Leettools

/-- `leettools.core.consts.docsource_status.DocSourceStatus` (values used
by the embedded code; the spec lists CREATED, PROCESSING, COMPLETED,
FAILED). -/
inductive DocSourceStatus where
  | created
  | processing
  | completed
  | failed
  deriving DecidableEq, Repr

/-- `leettools.core.consts.docsource_type.DocSourceType` values used by
the embedded code. -/
inductive DocSourceType where
  | search
  | url
  | local
  deriving DecidableEq, Repr

/-- `leettools.core.schemas.docsource.DocSource`, restricted to the
fields the embedded code reads or writes.  The store assigns
`docsource_uuid`; `source_status` starts at CREATED per the spec's data
model (the schema module itself is not under src). -/
structure DocSource where
  docsource_uuid : Nat
  source_type : DocSourceType
  uri : String
  display_name : String
  source_status : DocSourceStatus
  deriving DecidableEq, Repr

/-- `leettools.core.schemas.document.Document`, restricted to the
identifier fields `kb_add_url.add_url` prints. -/
structure Document where
  document_uuid : String
  docsink_uuid : String
  deriving DecidableEq, Repr

/-- A docsink-create record as returned by
`WebSearcher.create_docsinks_by_search_and_scrape`; its content is
opaque to the embedded code, which only tests the list for None/empty. -/
structure DocsinkCreate where
  docsink_id : Nat
  deriving DecidableEq, Repr

/-- One observable side effect of the embedded step code, in program
order: log lines, docsource-store calls, the store wait primitive, the
scheduler start, and an inference call. -/
inductive Effect where
  | logInfo (msg : String)
  | logWarning (msg : String)
  | logError (msg : String)
  | createDocsource (uuid : Nat)
  | updateDocsource (uuid : Nat) (status : DocSourceStatus)
  | deleteDocsource (uuid : Nat)
  | waitForDocsource (uuid : Nat) (timeout_in_secs : Nat)
  | runScheduler
  | inferenceCall (call_target : String)
  deriving DecidableEq, Repr

/-- Error outcomes of the embedded step code:
`exceptions.UnexpectedCaseException` and a re-raised pipeline exception
(the original exception is carried as its message string). -/
inductive RunErr where
  | unexpectedCase (msg : String)
  | pipelineExc (e : String)
  deriving DecidableEq, Repr

/-- Environment of `StepSearchToDocsource.run_step`: the inputs it reads
and the outcomes of the external calls it makes.  `search_result` is the
outcome of `WebSearcher.create_docsinks_by_search_and_scrape` (`none`
inside `.ok` models Python `None`); `adhoc_result` the outcome of
`pipeline_utils.run_adhoc_pipeline_for_docsinks`; `run_scheduler_result`
the boolean returned by `scheduler_manager.run_scheduler`;
`wait_result` the boolean returned by
`docsource_store.wait_for_docsource`. -/
structure StepEnv where
  auto_schedule : Bool
  scheduler_is_running : Bool
  run_scheduler_result : Bool
  wait_result : Bool
  search_result : Except String (Option (List DocsinkCreate))
  adhoc_result : Except String (List Document)
  target_chat_query_item : Option String
  search_keywords_arg : Option String
  retriever_type : String
  days_limit : Nat
  max_results : Nat
  timestamp : String
  deriving Repr

/-- `_create_docsrc_for_search` (step_search_to_docsource.py lines
192-248): builds a SEARCH-typed DocSourceCreate whose URI encodes the
retriever, query, date range, max results and a timestamp, and persists
it; the store returns the created record (uuid 1 here: the step creates
exactly one docsource). -/
def create_docsrc_for_search (env : StepEnv) (search_keywords : String) :
    DocSource :=
  { docsource_uuid := 1
    source_type := DocSourceType.search
    uri := "search://" ++ env.retriever_type ++ "?q=" ++ search_keywords
      ++ "&date_range=" ++ toString env.days_limit
      ++ "&max_results=" ++ toString env.max_results
      ++ "&ts=" ++ env.timestamp
    display_name := search_keywords
    source_status := DocSourceStatus.created }

/-- `_run_web_search_pipeline` (step_search_to_docsource.py lines
151-189): search-and-scrape; on a None or empty docsink list, warn, mark
the docsource COMPLETED, persist it and return the empty list; otherwise
run the ad-hoc pipeline on the docsinks, mark the docsource COMPLETED,
persist it and return the successful documents.  An exception from
either external call propagates.  Returns the result, the docsource as
mutated, and the effects in order. -/
def run_web_search_pipeline (env : StepEnv) (docsource : DocSource) :
    Except String (List Document) × DocSource × List Effect :=
  match env.search_result with
  | Except.error e => (Except.error e, docsource, [])
  | Except.ok docsink_create_list =>
    if docsink_create_list = none ∨ docsink_create_list = some [] then
      let ds := { docsource with source_status := DocSourceStatus.completed }
      (Except.ok [], ds,
        [Effect.logWarning "No results found for the query.",
         Effect.updateDocsource ds.docsource_uuid DocSourceStatus.completed])
    else
      match env.adhoc_result with
      | Except.error e => (Except.error e, docsource, [])
      | Except.ok success_documents =>
        let ds := { docsource with source_status := DocSourceStatus.completed }
        (Except.ok success_documents, ds,
          [Effect.updateDocsource ds.docsource_uuid DocSourceStatus.completed])

/-- `StepSearchToDocsource.run_step` (step_search_to_docsource.py lines
58-148).  With auto_schedule: if the context reports a running scheduler
the step does not start one (`started = False`); otherwise it calls
`run_scheduler`.  When `started` is False it blocks on
`docsource_store.wait_for_docsource` with `timeout_in_secs=300`; a
finished wait marks the docsource COMPLETED and persists it, an
unfinished one only logs a warning; either way the docsource is
returned.  Without auto_schedule it runs the synchronous pipeline; on
success it returns the docsource, on an exception it marks the docsource
FAILED, persists it and re-raises. -/
def run_step (env : StepEnv) : Except RunErr DocSource × List Effect :=
  match env.target_chat_query_item with
  | none =>
    (Except.error (RunErr.unexpectedCase "The chat query item is not provided."), [])
  | some query_content =>
    let search_keywords := env.search_keywords_arg.getD query_content
    let log0 := [Effect.logInfo ("Searching the web for query: " ++ search_keywords)]
    let docsource := create_docsrc_for_search env search_keywords
    let log1 := log0 ++ [Effect.createDocsource docsource.docsource_uuid]
    if env.auto_schedule then
      let (started, log2) :=
        if env.scheduler_is_running then
          (false, log1 ++ [Effect.logInfo "Scheduled the new DocSource to be processed ..."])
        else
          (env.run_scheduler_result,
           log1 ++ [Effect.logInfo "Start the scheduler to process the new DocSource ...",
                    Effect.runScheduler])
      if started = false then
        let log3 := log2 ++ [Effect.waitForDocsource docsource.docsource_uuid 300]
        if env.wait_result = false then
          (Except.ok docsource,
           log3 ++ [Effect.logWarning "The document source has not finished processing yet."])
        else
          let ds := { docsource with source_status := DocSourceStatus.completed }
          (Except.ok ds,
           log3 ++ [Effect.logInfo "The document source has finished processing.",
                    Effect.updateDocsource ds.docsource_uuid DocSourceStatus.completed])
      else
        (Except.ok docsource, log2)
    else
      let log2 := log1 ++ [Effect.logInfo "[Status]Start the document process pipeline ..."]
      match run_web_search_pipeline env docsource with
      | (Except.ok success_documents, _, peffs) =>
        (Except.ok docsource,
         log2 ++ peffs
           ++ [Effect.logInfo ("Successfully processed "
                ++ toString success_documents.length ++ " documents.")])
      | (Except.error e, ds, peffs) =>
        let ds2 := { ds with source_status := DocSourceStatus.failed }
        (Except.error (RunErr.pipelineExc e),
         log2 ++ peffs
           ++ [Effect.logError ("Failed to run the web search pipeline: " ++ e),
               Effect.updateDocsource ds2.docsource_uuid DocSourceStatus.failed])

/-- Status of docsource `uuid` in the docsource store after replaying
the update effects in order, starting from the status at creation
(CREATED). -/
def finalStoredStatus (uuid : Nat) (effs : List Effect) : DocSourceStatus :=
  effs.foldl
    (fun st e =>
      match e with
      | Effect.updateDocsource u s => if u = uuid then s else st
      | _ => st)
    DocSourceStatus.created

/-- Whether the effect trace contains a warning log line. -/
def hasWarning (effs : List Effect) : Bool :=
  effs.any (fun e => match e with | Effect.logWarning _ => true | _ => false)

/-- The timeouts of the store-wait calls in a trace, in order. -/
def waitTimeoutsIn (effs : List Effect) : List Nat :=
  effs.filterMap
    (fun e => match e with | Effect.waitForDocsource _ t => some t | _ => none)

/-- The statuses written to the docsource store by a trace, in order. -/
def statusWrites (effs : List Effect) : List DocSourceStatus :=
  effs.filterMap
    (fun e => match e with | Effect.updateDocsource _ s => some s | _ => none)

/-- The docsource deletions in a trace, in order. -/
def docsourceDeletes (effs : List Effect) : List Nat :=
  effs.filterMap
    (fun e => match e with | Effect.deleteDocsource u => some u | _ => none)

/-! ## StepPlanTopic (step_plan_topic.py) -/

/-- The keys of `prompt_variables` declared by
`StepPlanTopic.used_prompt_templates` (step_plan_topic.py lines 68-78),
in declaration order. -/
def stepPlanTopicPromptVariables : List String :=
  ["context_presentation", "num_of_section_instruction", "article_style",
   "query", "content_instruction", "output_lang_instruction",
   "search_lang_instruction", "json_format_instruction", "content"]

/-- Membership test mirroring Python `var not in template_vars` on a
dict modelled as an association list. -/
def hasKey (template_vars : List (String × String)) (var : String) : Bool :=
  template_vars.any (fun p => p.1 = var)

/-- The check loop of `_step_plan_topic_for_style` (step_plan_topic.py
lines 218-220): iterate the declared prompt variables in order and raise
`MissingParametersException(missing_parameter=var)` at the first one
absent from `template_vars`. -/
def checkPromptVariables (declared : List String)
    (template_vars : List (String × String)) : Except String Unit :=
  match declared with
  | [] => Except.ok ()
  | var :: rest =>
    if hasKey template_vars var then checkPromptVariables rest template_vars
    else Except.error var

/-- `num_of_section_instruction` computation of
`_step_plan_topic_for_style` (step_plan_topic.py lines 152-160). -/
def numOfSectionInstruction (num_of_sections : Option Int) : String :=
  match num_of_sections with
  | none => "generate a list of most relevant topics"
  | some n =>
    if n = 0 then "generate a list of most relevant topics"
    else if n = 1 then "generate a topic"
    else "generate " ++ toString n ++ " most relevant topics"

/-- Resolved string inputs of `_step_plan_topic_for_style` that come
from external helpers (`prompt_util.*`, `flow_util.*`,
`config_utils.get_str_option_value` over flow options): the embedding
takes their resolved values as inputs. -/
structure PlanEnv where
  query : String
  content : String
  num_of_sections : Option Int
  article_style : String
  content_instruction : String
  context_presentation : String
  output_lang_instruction : String
  search_lang_instruction : String
  json_format_instruction : String
  inference_response : String
  deriving Repr

/-- The `template_vars` dict literal of `_step_plan_topic_for_style`
(step_plan_topic.py lines 206-216), keys in source order. -/
def buildTemplateVars (env : PlanEnv) : List (String × String) :=
  [("context_presentation", env.context_presentation),
   ("num_of_section_instruction", numOfSectionInstruction env.num_of_sections),
   ("article_style", env.article_style),
   ("query", env.query),
   ("content_instruction", env.content_instruction),
   ("output_lang_instruction", env.output_lang_instruction),
   ("search_lang_instruction", env.search_lang_instruction),
   ("json_format_instruction", env.json_format_instruction),
   ("content", env.content)]

/-- Tail of `_step_plan_topic_for_style` from the variable check onward
(step_plan_topic.py lines 218-231), parameterized over the resolved
`template_vars` map: raise `MissingParametersException` naming the first
declared variable with no resolved value, otherwise render the template
and run the inference call.  The inference effect appears in the trace
only on the success path, after the check. -/
def planTopicCheckAndCall (template_vars : List (String × String))
    (inference_response : String) : Except String String × List Effect :=
  match checkPromptVariables stepPlanTopicPromptVariables template_vars with
  | Except.error var => (Except.error var, [])
  | Except.ok _ =>
    (Except.ok inference_response, [Effect.inferenceCall "get_topic_list"])

/-- `_step_plan_topic_for_style` (step_plan_topic.py lines 129-233):
build `template_vars` from the resolved options and helper outputs, then
check and call. -/
def step_plan_topic_for_style (env : PlanEnv) :
    Except String String × List Effect :=
  planTopicCheckAndCall (buildTemplateVars env) env.inference_response

/-! ## Scheduler retry policy (settings.py; scheduler code not under src) -/

/-- Scheduler-related defaults of `SystemSettings` (settings.py lines
383-409). -/
structure SystemSettings where
  DOCSOURCE_RETRY_RANGE_IN_HOURS : Nat := 24
  scheduler_default_number_worker : Nat := 8
  scheduler_base_delay_in_seconds : Nat := 10
  scheduler_max_delay_in_seconds : Nat := 60
  scheduler_max_retries : Nat := 3
  deriving Repr

/-- A `SystemSettings` with every field at its declared default. -/
def defaultSystemSettings : SystemSettings := {}

/-- Modelled from the spec: the scheduler's retry/backoff implementation
is not under src (only its configuration defaults in settings.py are).
Per the spec, "Retry delay for attempt k equals
min(base_delay * 2^(k-1), max_delay)". -/
def retryDelayForAttempt (s : SystemSettings) (k : Nat) : Nat :=
  min (s.scheduler_base_delay_in_seconds * 2 ^ (k - 1))
    s.scheduler_max_delay_in_seconds

/-- Outcome of the scheduler's retry decision for a failed source. -/
inductive RetryDecision where
  | resubmitAfter (delay_in_secs : Nat)
  | permanentlyFailed
  deriving DecidableEq, Repr

/-- Modelled from the spec: the scheduler's retry decision is not under
src.  Per the spec, "a source exceeding the configured max-retries is
marked permanently FAILED and is not re-submitted"; otherwise it is
re-submitted after the exponential-backoff delay for its attempt
count. -/
def schedulerRetryDecision (s : SystemSettings) (attempt_count : Nat) :
    RetryDecision :=
  if s.scheduler_max_retries < attempt_count then RetryDecision.permanentlyFailed
  else RetryDecision.resubmitAfter (retryDelayForAttempt s attempt_count)

/-! ## The add_url CLI command (cli/kb/kb_add_url.py) -/

/-- Observable output of the `add_url` command: logger error lines and
`click.echo` output. -/
inductive CliEffect where
  | logError (msg : String)
  | echo (msg : String)
  deriving DecidableEq, Repr

/-- Tail of `add_url` after the pipeline call (kb_add_url.py lines
114-130): fetch the documents of the created docsource from the
document store; log an error and return early when zero or more than
one are found; otherwise echo the org/kb names and the docsource,
docsink and document identifiers of the single document. -/
def add_url_report (org_name kb_name : String) (url : String)
    (docsource : DocSource) (documents : List Document) : List CliEffect :=
  if documents.length = 0 then
    [CliEffect.logError ("No documents were found for the URL: " ++ url)]
  else if 1 < documents.length then
    [CliEffect.logError ("More than one document was found for the URL: " ++ url)]
  else
    match documents with
    | document :: _ =>
      [CliEffect.echo
        ("org:\t" ++ org_name ++ "\n"
          ++ "kb:\t" ++ kb_name ++ "\n"
          ++ "docource_id:\t" ++ toString docsource.docsource_uuid ++ "\n"
          ++ "docsink_id:\t" ++ document.docsink_uuid ++ "\n"
          ++ "document_uuid:\t" ++ document.document_uuid)]
    | [] => []

/-- The URL-typed docsource `add_url` creates (kb_add_url.py lines
88-95); the store assigns the uuid (1: the command creates exactly
one). -/
def add_url_docsource (url : String) : DocSource :=
  { docsource_uuid := 1
    source_type := DocSourceType.url
    uri := url
    display_name := url
    source_status := DocSourceStatus.created }

/-- Modelled from the spec: `pipeline_utils.process_docsource_manual` is
not under src.  Per the spec's end-to-end property, submitting one URL
source with auto_schedule=false runs the pipeline synchronously and
exactly one Document is produced and retrievable from the document
store immediately after the call returns. -/
def process_docsource_manual_spec (docsource : DocSource) : List Document :=
  [{ document_uuid := "doc-of-" ++ toString docsource.docsource_uuid
     docsink_uuid := "sink-of-" ++ toString docsource.docsource_uuid }]

/-- `add_url` on a knowledge base with auto_schedule=false (kb_add_url.py
lines 88-130): create the URL docsource, run the pipeline synchronously
via `process_docsource_manual`, then read the documents back and
report.  The synchronous pipeline is the spec-modelled
`process_docsource_manual_spec`. -/
def add_url_sync (org_name kb_name url : String) : List CliEffect :=
  let docsource := add_url_docsource url
  let documents := process_docsource_manual_spec docsource
  add_url_report org_name kb_name url docsource documents

/-! ## run_inference_call_direct (eds/api_caller/api_utils.py) -/

/-- The fields of an OpenAI `ChatCompletion` the embedded code reads:
token usage and the message content.  (`parsed_json` stands for
`choices[0].message.parsed.model_dump_json()` on the structured-output
path.) -/
structure Completion where
  total_tokens : Int
  prompt_tokens : Int
  completion_tokens : Int
  content : String
  parsed_json : String
  deriving DecidableEq, Repr

/-- `UsageAPICallCreate` restricted to the fields
`run_inference_call_direct` sets from the call outcome (api_utils.py
lines 170-185); prompt/identity fields are copied from the inputs and
omitted here. -/
structure UsageAPICallCreate where
  success : Bool
  total_token_count : Int
  input_token_count : Int
  output_token_count : Int
  deriving DecidableEq, Repr

/-- Inputs of `run_inference_call_direct` relevant to its control flow:
whether a response pydantic model was passed and whether JSON output is
requested (which select parsed/plain call and response handling), and
the outcome of the vendor completion call.  Numeric option parsing
(temperature, max_tokens; api_utils.py lines 69-100) only shapes the
call arguments and is elided. -/
structure InferEnv where
  need_json : Bool
  has_response_pydantic_model : Bool
  call_outcome : Except String Completion
  deriving Repr

/-- `use_parsed` flag of `run_inference_call_direct` (api_utils.py lines
102-108): true exactly when JSON output is requested and a response
pydantic model was provided. -/
def inferUseParsed (env : InferEnv) : Bool :=
  env.need_json && env.has_response_pydantic_model

/-- The claim-relevant part of the JSON cleanup (api_utils.py lines
199-202): the regex removes markdown code-fence markers from the
response string.  Modelled as removing the fence substrings. -/
def stripJsonFences (s : String) : String :=
  ((s.replace "```json" "").replace "```" "")

/-- The usage record built in the `finally` block of
`run_inference_call_direct` (api_utils.py lines 157-186): when the
completion call returned, success=True with the completion's token
counts; when it raised (completion is None), success=False with
total 0 and input/output -1. -/
def mkUsageRecord (completion : Option Completion) : UsageAPICallCreate :=
  match completion with
  | some c =>
    { success := true
      total_token_count := c.total_tokens
      input_token_count := c.prompt_tokens
      output_token_count := c.completion_tokens }
  | none =>
    { success := false
      total_token_count := 0
      input_token_count := -1
      output_token_count := -1 }

/-- `run_inference_call_direct` (api_utils.py lines 28-203), with the
vendor call outcome as input.  The try/finally always records exactly
one usage entry; an exception from the call propagates after the
record; on success the response string is the parsed JSON dump
(use_parsed) or the (fence-stripped when need_json) message content. -/
def run_inference_call_direct (env : InferEnv) :
    Except String String × List UsageAPICallCreate :=
  match env.call_outcome with
  | Except.error e => (Except.error e, [mkUsageRecord none])
  | Except.ok completion =>
    let record := mkUsageRecord (some completion)
    let response_str :=
      if inferUseParsed env then completion.parsed_json
      else if env.need_json then stripJsonFences completion.content
      else completion.content
    (Except.ok response_str, [record])

/-! ## Concrete environments for evaluation -/

/-- A run_step environment: auto_schedule knowledge base, a scheduler
already running in the context, wait timing out. -/
def envSchedRunning : StepEnv :=
  { auto_schedule := true
    scheduler_is_running := true
    run_scheduler_result := false
    wait_result := false
    search_result := Except.ok none
    adhoc_result := Except.ok []
    target_chat_query_item := some "test query"
    search_keywords_arg := none
    retriever_type := "google"
    days_limit := 0
    max_results := 10
    timestamp := "2024-01-01-00-00-00" }

/-- As `envSchedRunning`, but the wait finishes before the timeout. -/
def envSchedRunningWaitOk : StepEnv :=
  { envSchedRunning with wait_result := true }

/-- A synchronous (auto_schedule=false) environment whose web search
raises. -/
def envSyncSearchFails : StepEnv :=
  { envSchedRunning with
      auto_schedule := false
      search_result := Except.error "search boom" }

/-- A synchronous environment whose web search finds no results. -/
def envSyncEmptyResults : StepEnv :=
  { envSchedRunning with
      auto_schedule := false
      search_result := Except.ok (some []) }

/-- An inference environment whose vendor completion call raises. -/
def inferEnvFail : InferEnv :=
  { need_json := true
    has_response_pydantic_model := false
    call_outcome := Except.error "rate limited" }

/-- An inference environment whose vendor completion call succeeds. -/
def inferEnvOk : InferEnv :=
  { need_json := false
    has_response_pydantic_model := false
    call_outcome := Except.ok
      { total_tokens := 30
        prompt_tokens := 20
        completion_tokens := 10
        content := "the answer"
        parsed_json := "{}" } }

/-- A concrete in-flight DocSource used to evaluate the pipeline
theorems. -/
def dsExample : DocSource :=
  { docsource_uuid := 7
    source_type := DocSourceType.search
    uri := "search://google?q=x"
    display_name := "x"
    source_status := DocSourceStatus.processing }

/-! ## Helper lemmas -/

/-- If every declared variable has a resolved value, the check loop of
`_step_plan_topic_for_style` passes. -/
theorem checkPromptVariables_ok (declared : List String)
    (tv : List (String × String)) (h : ∀ v ∈ declared, hasKey tv v = true) :
    checkPromptVariables declared tv = Except.ok () := by
  induction declared with
  | nil => rfl
  | cons w rest ih =>
    have hw := h w (List.mem_cons_self w rest)
    simp only [checkPromptVariables, hw, if_true]
    exact ih (fun v hv => h v (List.mem_cons_of_mem w hv))

/-- If some declared variable has no resolved value, the check loop of
`_step_plan_topic_for_style` raises at one of the unresolved declared
variables (the first in declaration order). -/
theorem checkPromptVariables_missing (declared : List String)
    (tv : List (String × String))
    (h : ∃ v ∈ declared, hasKey tv v = false) :
    ∃ v, v ∈ declared ∧ hasKey tv v = false ∧
      checkPromptVariables declared tv = Except.error v := by
  induction declared with
  | nil =>
    rcases h with ⟨v, hv, _⟩
    exact absurd hv (List.not_mem_nil v)
  | cons w rest ih =>
    rcases hw : hasKey tv w with _ | _
    · refine ⟨w, List.mem_cons_self w rest, hw, ?_⟩
      simp [checkPromptVariables, hw]
    · have hrest : ∃ v ∈ rest, hasKey tv v = false := by
        rcases h with ⟨v, hv, hvf⟩
        rcases List.mem_cons.mp hv with rfl | hvr
        · rw [hw] at hvf; cases hvf
        · exact ⟨v, hvr, hvf⟩
      rcases ih hrest with ⟨v, hv1, hv2, hv3⟩
      refine ⟨v, List.mem_cons_of_mem w hv1, hv2, ?_⟩
      simp [checkPromptVariables, hw, hv3]

/-! ## Claim theorems -/

/-- C1: with auto_schedule true and a scheduler already running (so the
step cannot start its own), `StepSearchToDocsource.run_step` blocks on
the store wait for the created docsource — but the timeout it passes is
`timeout_in_secs=300`, i.e. 5 minutes, not the 10 minutes (600 seconds)
stated by the claim and by the function's own docstring.  The single
wait call in the trace carries timeout 300, and 300 ≠ 10 * 60. -/
theorem run_step_wait_timeout_eval :
    waitTimeoutsIn (run_step envSchedRunning).2 = [300] ∧
      (300 : Nat) ≠ 10 * 60 := by decide

/-- C2 counterexample: a flow step does write a DocumentSource's status
field: on the auto_schedule path with a scheduler already running and a
finished wait, `StepSearchToDocsource.run_step` itself issues a store
update writing status COMPLETED, refuting "no flow step writes to a
DocumentSource's status field". -/
theorem run_step_writes_status_counterexample :
    Effect.updateDocsource 1 DocSourceStatus.completed ∈
      (run_step envSchedRunningWaitOk).2 := by decide

/-- C2 (amended): `StepSearchToDocsource.run_step` never deletes a
DocumentSource, but it does write the DocSource's status field: on any
input, its trace contains no delete, and its status writes are either
none, a single COMPLETED (finished wait, or successful/empty synchronous
pipeline), or a single FAILED (synchronous pipeline failure). -/
theorem run_step_status_write_shape (env : StepEnv) :
    docsourceDeletes (run_step env).2 = [] ∧
      (statusWrites (run_step env).2 = [] ∨
        statusWrites (run_step env).2 = [DocSourceStatus.completed] ∨
        statusWrites (run_step env).2 = [DocSourceStatus.failed]) := by
  obtain ⟨as, sir, rsr, wr, sr, ar, tcq, ska, rt, dl, mr, ts⟩ := env
  cases tcq with
  | none => simp [run_step, docsourceDeletes, statusWrites]
  | some q =>
    cases as <;> cases sir <;> cases rsr <;> cases wr <;>
      rcases sr with e | (_ | (_ | ⟨d, l⟩)) <;>
      rcases ar with e2 | docs <;>
      simp [run_step, run_web_search_pipeline, create_docsrc_for_search,
        docsourceDeletes, statusWrites]

/-- C2 witness: the amended theorem applied at a concrete environment
(auto_schedule, scheduler running, wait finished). -/
theorem run_step_status_write_shape_witness :
    docsourceDeletes (run_step envSchedRunningWaitOk).2 = [] ∧
      (statusWrites (run_step envSchedRunningWaitOk).2 = [] ∨
        statusWrites (run_step envSchedRunningWaitOk).2 = [DocSourceStatus.completed] ∨
        statusWrites (run_step envSchedRunningWaitOk).2 = [DocSourceStatus.failed]) :=
  run_step_status_write_shape envSchedRunningWaitOk

/-- C3: when the step could not start its own scheduler and the store
wait for the search-derived docsource returns false (timeout while
still processing), `StepSearchToDocsource.run_step` logs a warning and
still returns the created docsource (no exception, no status write on
that path). -/
theorem run_step_timeout_best_effort (env : StepEnv) (q : String)
    (hq : env.target_chat_query_item = some q)
    (ha : env.auto_schedule = true)
    (hs : env.scheduler_is_running = true ∨ env.run_scheduler_result = false)
    (hw : env.wait_result = false) :
    (run_step env).1 =
      Except.ok (create_docsrc_for_search env (env.search_keywords_arg.getD q)) ∧
    hasWarning (run_step env).2 = true ∧
    statusWrites (run_step env).2 = [] := by
  obtain ⟨as, sir, rsr, wr, sr, ar, tcq, ska, rt, dl, mr, ts⟩ := env
  cases tcq <;> cases as <;> cases sir <;> cases rsr <;> cases wr <;>
    simp_all [run_step, create_docsrc_for_search, hasWarning, statusWrites]

/-- C3 witness: the theorem applied at a concrete environment where the
wait times out. -/
theorem run_step_timeout_best_effort_witness :
    (envSchedRunning.target_chat_query_item = some "test query" ∧
      envSchedRunning.auto_schedule = true ∧
      (envSchedRunning.scheduler_is_running = true ∨
        envSchedRunning.run_scheduler_result = false) ∧
      envSchedRunning.wait_result = false) ∧
    ((run_step envSchedRunning).1 =
        Except.ok (create_docsrc_for_search envSchedRunning
          (envSchedRunning.search_keywords_arg.getD "test query")) ∧
      hasWarning (run_step envSchedRunning).2 = true ∧
      statusWrites (run_step envSchedRunning).2 = []) :=
  ⟨⟨rfl, rfl, Or.inl rfl, rfl⟩,
    run_step_timeout_best_effort envSchedRunning "test query" rfl rfl
      (Or.inl rfl) rfl⟩

/-- C4: with auto_schedule false, if any stage of the synchronous
web-search pipeline raises, `StepSearchToDocsource.run_step` writes
FAILED to the docsource store for the created docsource (uuid 1) and
re-raises the same exception; the stored status ends FAILED, never
COMPLETED. -/
theorem run_step_sync_failure (env : StepEnv) (q e : String)
    (hq : env.target_chat_query_item = some q)
    (ha : env.auto_schedule = false)
    (he : env.search_result = Except.error e ∨
      ∃ d l, env.search_result = Except.ok (some (d :: l)) ∧
        env.adhoc_result = Except.error e) :
    (run_step env).1 = Except.error (RunErr.pipelineExc e) ∧
    Effect.updateDocsource 1 DocSourceStatus.failed ∈ (run_step env).2 ∧
    finalStoredStatus 1 (run_step env).2 = DocSourceStatus.failed ∧
    finalStoredStatus 1 (run_step env).2 ≠ DocSourceStatus.completed := by
  obtain ⟨as, sir, rsr, wr, sr, ar, tcq, ska, rt, dl, mr, ts⟩ := env
  cases tcq <;> cases as <;>
    rcases sr with e' | (_ | (_ | ⟨d, l⟩)) <;> rcases ar with e2 | docs <;>
    simp_all [run_step, run_web_search_pipeline, create_docsrc_for_search,
      finalStoredStatus]

/-- C4 witness: the theorem applied at a concrete synchronous
environment whose web search raises. -/
theorem run_step_sync_failure_witness :
    (envSyncSearchFails.target_chat_query_item = some "test query" ∧
      envSyncSearchFails.auto_schedule = false ∧
      envSyncSearchFails.search_result = Except.error "search boom") ∧
    ((run_step envSyncSearchFails).1 =
        Except.error (RunErr.pipelineExc "search boom") ∧
      Effect.updateDocsource 1 DocSourceStatus.failed ∈
        (run_step envSyncSearchFails).2 ∧
      finalStoredStatus 1 (run_step envSyncSearchFails).2 =
        DocSourceStatus.failed ∧
      finalStoredStatus 1 (run_step envSyncSearchFails).2 ≠
        DocSourceStatus.completed) :=
  ⟨⟨rfl, rfl, rfl⟩,
    run_step_sync_failure envSyncSearchFails "test query" "search boom" rfl rfl
      (Or.inl rfl)⟩

/-- C5: with auto_schedule true and the context reporting a running
scheduler, `StepSearchToDocsource.run_step` never calls
`run_scheduler` (no second scheduler) and instead blocks on the
docsource store's wait primitive for the created docsource. -/
theorem run_step_no_second_scheduler (env : StepEnv) (q : String)
    (hq : env.target_chat_query_item = some q)
    (ha : env.auto_schedule = true)
    (hs : env.scheduler_is_running = true) :
    Effect.runScheduler ∉ (run_step env).2 ∧
    Effect.waitForDocsource 1 300 ∈ (run_step env).2 := by
  obtain ⟨as, sir, rsr, wr, sr, ar, tcq, ska, rt, dl, mr, ts⟩ := env
  cases tcq <;> cases as <;> cases sir <;> cases wr <;>
    simp_all [run_step, create_docsrc_for_search]

/-- C5 witness: the theorem applied at a concrete environment with a
running scheduler. -/
theorem run_step_no_second_scheduler_witness :
    (envSchedRunningWaitOk.target_chat_query_item = some "test query" ∧
      envSchedRunningWaitOk.auto_schedule = true ∧
      envSchedRunningWaitOk.scheduler_is_running = true) ∧
    (Effect.runScheduler ∉ (run_step envSchedRunningWaitOk).2 ∧
      Effect.waitForDocsource 1 300 ∈ (run_step envSchedRunningWaitOk).2) :=
  ⟨⟨rfl, rfl, rfl⟩,
    run_step_no_second_scheduler envSchedRunningWaitOk "test query" rfl rfl rfl⟩

/-- C6: when the search-and-scrape returns None or an empty docsink
list, `_run_web_search_pipeline` marks the docsource COMPLETED (its only
status write is COMPLETED, never FAILED), persists it, and returns the
empty document list. -/
theorem pipeline_empty_results_completed (env : StepEnv) (ds : DocSource)
    (he : env.search_result = Except.ok none ∨
      env.search_result = Except.ok (some [])) :
    (run_web_search_pipeline env ds).1 = Except.ok [] ∧
    (run_web_search_pipeline env ds).2.1.source_status =
      DocSourceStatus.completed ∧
    Effect.updateDocsource ds.docsource_uuid DocSourceStatus.completed ∈
      (run_web_search_pipeline env ds).2.2 ∧
    statusWrites (run_web_search_pipeline env ds).2.2 =
      [DocSourceStatus.completed] := by
  obtain ⟨as, sir, rsr, wr, sr, ar, tcq, ska, rt, dl, mr, ts⟩ := env
  rcases sr with e | (_ | (_ | ⟨d, l⟩)) <;>
    simp_all [run_web_search_pipeline, statusWrites]

/-- C6 witness: the theorem applied at a concrete environment whose
search finds zero results. -/
theorem pipeline_empty_results_completed_witness :
    (envSyncEmptyResults.search_result = Except.ok none ∨
      envSyncEmptyResults.search_result = Except.ok (some [])) ∧
    ((run_web_search_pipeline envSyncEmptyResults dsExample).1 =
        Except.ok [] ∧
      (run_web_search_pipeline envSyncEmptyResults dsExample).2.1.source_status =
        DocSourceStatus.completed ∧
      Effect.updateDocsource dsExample.docsource_uuid DocSourceStatus.completed ∈
        (run_web_search_pipeline envSyncEmptyResults dsExample).2.2 ∧
      statusWrites (run_web_search_pipeline envSyncEmptyResults dsExample).2.2 =
        [DocSourceStatus.completed]) :=
  ⟨Or.inr rfl,
    pipeline_empty_results_completed envSyncEmptyResults dsExample (Or.inr rfl)⟩

/-- C7: for the prompt variables declared by StepPlanTopic's registered
template, if the resolved template-variable map misses any declared
variable, `_step_plan_topic_for_style` raises
`MissingParametersException` naming a missing declared variable and the
trace holds no inference call; if every declared variable is resolved,
no such exception is raised.  The actual step resolves all nine
declared variables, so it always reaches the inference call. -/
theorem step_plan_topic_variable_check :
    (∀ (tv : List (String × String)) (r : String),
      ((∃ v ∈ stepPlanTopicPromptVariables, hasKey tv v = false) →
        ∃ v, v ∈ stepPlanTopicPromptVariables ∧ hasKey tv v = false ∧
          planTopicCheckAndCall tv r = (Except.error v, [])) ∧
      ((∀ v ∈ stepPlanTopicPromptVariables, hasKey tv v = true) →
        planTopicCheckAndCall tv r =
          (Except.ok r, [Effect.inferenceCall "get_topic_list"]))) ∧
    (∀ env : PlanEnv,
      step_plan_topic_for_style env =
        (Except.ok env.inference_response,
          [Effect.inferenceCall "get_topic_list"])) := by
  refine ⟨fun tv r => ⟨fun h => ?_, fun h => ?_⟩, fun env => rfl⟩
  · rcases checkPromptVariables_missing stepPlanTopicPromptVariables tv h with
      ⟨v, hv1, hv2, hv3⟩
    exact ⟨v, hv1, hv2, by simp [planTopicCheckAndCall, hv3]⟩
  · simp [planTopicCheckAndCall,
      checkPromptVariables_ok stepPlanTopicPromptVariables tv h]

/-- C7 witness: the theorem applied at the empty resolved map, where the
first declared variable is missing. -/
theorem step_plan_topic_variable_check_witness :
    (∃ v ∈ stepPlanTopicPromptVariables, hasKey [] v = false) ∧
    (∃ v, v ∈ stepPlanTopicPromptVariables ∧ hasKey [] v = false ∧
      planTopicCheckAndCall [] "resp" = (Except.error v, [])) :=
  ⟨by decide, (step_plan_topic_variable_check.1 [] "resp").1 (by decide)⟩

/-- C8: with the SystemSettings defaults (base delay 10 s, max delay
60 s, max retries 3), the scheduler's retry delay for attempt k is
min(base_delay * 2^(k-1), max_delay) — concretely 10, 20, 40, 60 for
attempts 1..4 — and a source whose attempt count exceeds
scheduler_max_retries is marked permanently FAILED and not
re-submitted. -/
theorem scheduler_retry_policy_defaults :
    defaultSystemSettings.scheduler_base_delay_in_seconds = 10 ∧
    defaultSystemSettings.scheduler_max_delay_in_seconds = 60 ∧
    defaultSystemSettings.scheduler_max_retries = 3 ∧
    (∀ k : Nat, retryDelayForAttempt defaultSystemSettings k =
      min (10 * 2 ^ (k - 1)) 60) ∧
    ((List.range 4).map
        (fun i => retryDelayForAttempt defaultSystemSettings (i + 1)) =
      [10, 20, 40, 60]) ∧
    (∀ attempt_count : Nat, 3 < attempt_count →
      schedulerRetryDecision defaultSystemSettings attempt_count =
        RetryDecision.permanentlyFailed) := by
  refine ⟨rfl, rfl, rfl, fun k => rfl, by decide, fun a ha => ?_⟩
  simp [schedulerRetryDecision, defaultSystemSettings, ha]

/-- C8 witness: the theorem applied at attempt count 4, one past the
default max retries. -/
theorem scheduler_retry_policy_defaults_witness :
    3 < 4 ∧
    schedulerRetryDecision defaultSystemSettings 4 =
      RetryDecision.permanentlyFailed :=
  ⟨by decide, scheduler_retry_policy_defaults.2.2.2.2.2 4 (by decide)⟩

/-- C9: `add_url` echoes the docsource/docsink/document identifiers
exactly when the store holds one document for the created docsource,
and logs an error and returns early when it holds zero or more than
one; with auto_schedule false the synchronous pipeline (spec-modelled)
yields exactly one document for one URL source, so the command echoes
the identifiers. -/
theorem add_url_single_document_report :
    (∀ (o k u : String) (ds : DocSource) (docs : List Document),
      ((∃ m, add_url_report o k u ds docs = [CliEffect.echo m]) ↔
        docs.length = 1) ∧
      (docs.length ≠ 1 →
        ∃ m, add_url_report o k u ds docs = [CliEffect.logError m])) ∧
    (∀ (o k u : String),
      (process_docsource_manual_spec (add_url_docsource u)).length = 1 ∧
      ∃ m, add_url_sync o k u = [CliEffect.echo m]) := by
  constructor
  · intro o k u ds docs
    rcases docs with _ | ⟨d, _ | ⟨d2, rest⟩⟩ <;>
      simp [add_url_report]
  · intro o k u
    refine ⟨rfl, ?_⟩
    exact ⟨_, rfl⟩

/-- C9 witness: the theorem applied at an empty document list, where
the command logs an error. -/
theorem add_url_single_document_report_witness :
    ([] : List Document).length ≠ 1 ∧
    (∃ m, add_url_report "org-default" "kb-default" "http://example.com"
        dsExample [] = [CliEffect.logError m]) :=
  ⟨by decide,
    (add_url_single_document_report.1 "org-default" "kb-default"
        "http://example.com" dsExample []).2 (by decide)⟩

/-- C10: every call of `run_inference_call_direct` records exactly one
usage entry: on a successful vendor completion the record has
success=True and the completion's token counts and a response string is
returned; on a raising call the record has success=False, total token
count 0 and input/output token counts -1, and the original exception
propagates. -/
theorem run_inference_usage_record (env : InferEnv) :
    (run_inference_call_direct env).2.length = 1 ∧
    (∀ c, env.call_outcome = Except.ok c →
      (run_inference_call_direct env).2 =
        [{ success := true
           total_token_count := c.total_tokens
           input_token_count := c.prompt_tokens
           output_token_count := c.completion_tokens }] ∧
      ∃ s, (run_inference_call_direct env).1 = Except.ok s) ∧
    (∀ e, env.call_outcome = Except.error e →
      (run_inference_call_direct env).1 = Except.error e ∧
      (run_inference_call_direct env).2 =
        [{ success := false
           total_token_count := 0
           input_token_count := -1
           output_token_count := -1 }]) := by
  obtain ⟨nj, hm, co⟩ := env
  rcases co with e | c <;>
    simp [run_inference_call_direct, mkUsageRecord]

/-- C10 witness: the theorem applied at a concrete environment whose
vendor call raises. -/
theorem run_inference_usage_record_witness :
    inferEnvFail.call_outcome = Except.error "rate limited" ∧
    ((run_inference_call_direct inferEnvFail).1 =
        Except.error "rate limited" ∧
      (run_inference_call_direct inferEnvFail).2 =
        [{ success := false
           total_token_count := 0
           input_token_count := -1
           output_token_count := -1 }]) :=
  ⟨rfl, (run_inference_usage_record inferEnvFail).2.2 "rate limited" rfl⟩

end Leettools
